import Mathlib

/-!
Verification of the susanoo weather-polling program (ymotongpoo/susanoo).

Shallow embedding conventions:
* Go `float64` values are modelled as exact rationals `ℚ`; every arithmetic
  operation the program performs on them (`/ 3`, `* 100`) is exact at the
  concrete values appearing in the claims, so the rational model agrees with
  IEEE evaluation there.
* Go `int` / `int64` are modelled as `ℤ`; the Go conversion `int(x)` on a
  `float64` truncates toward zero, modelled by `goIntTrunc`.
* Fallible operations return `Except` / `Option`; a Go runtime panic
  (out-of-range index) is modelled as `Option.none`.
* External calls (HTTP fetches, the openweathermap client) are modelled by
  passing their results in as explicit arguments.
-/

namespace Susanoo

/-- Go conversion `int(x)` on a `float64`: truncation toward zero.
For a rational `q` in lowest terms this is `q.num` T-divided by `q.den`. -/
def goIntTrunc (q : ℚ) : ℤ := q.num.tdiv (q.den : ℤ)

/-! ## Data model: the unified Weather record (src/unnamed/part_000 lines 142-153) -/

structure Weather where
  Temperature : ℚ
  Pressure : ℚ
  Humidity : ℤ
  Weather : String
  WindSpeed : ℚ
  WindDeg : ℚ
  Cloudiness : ℤ
  Rainfall : ℚ
  Snowfall : ℚ
  UV : ℚ
  deriving DecidableEq

/-! ## OpenWeatherMap response shape (the fields of
`owm.CurrentWeatherData` and `owm.UV` that `OWMToWeather` reads) -/

structure OWMMain where
  Temp : ℚ
  Pressure : ℚ
  Humidity : ℤ
  deriving DecidableEq

structure OWMWeatherItem where
  Main : String
  deriving DecidableEq

structure OWMWind where
  Speed : ℚ
  Deg : ℚ
  deriving DecidableEq

structure OWMClouds where
  All : ℤ
  deriving DecidableEq

structure OWMRain where
  ThreeH : ℚ
  deriving DecidableEq

structure CurrentWeatherData where
  Main : OWMMain
  Weather : List OWMWeatherItem
  Wind : OWMWind
  Clouds : OWMClouds
  Rain : OWMRain
  deriving DecidableEq

structure UV where
  Value : ℚ
  deriving DecidableEq

/-- `OWMToWeather` (src/unnamed/part_000 lines 325-337).  The Go code reads
`w.Weather[0]` without a guard; on an empty slice that indexing panics, which
the embedding records as `none`.  `Snowfall` is never assigned, so it keeps
Go's zero value. -/
def OWMToWeather (w : CurrentWeatherData) (uv : UV) : Option Weather :=
  match w.Weather with
  | [] => none
  | item0 :: _ =>
    some { Temperature := w.Main.Temp
           Pressure := w.Main.Pressure
           Humidity := w.Main.Humidity
           Weather := item0.Main
           WindSpeed := w.Wind.Speed
           WindDeg := w.Wind.Deg
           Cloudiness := w.Clouds.All
           Rainfall := w.Rain.ThreeH / 3
           Snowfall := 0
           UV := uv.Value }

/-! ## DarkSky response shape (src/unnamed/part_000 lines 287-304) -/

structure DSCurrently where
  Time : ℤ
  Summary : String
  Icon : String
  Temperature : ℚ
  Pressure : ℚ
  Humidity : ℚ
  WindSpeed : ℚ
  WindBearing : ℤ
  PrecipIntensity : ℚ
  CloudCover : ℚ
  UVIndex : ℚ
  deriving DecidableEq

structure DarkSkyForecast where
  Latitude : ℚ
  Longitude : ℚ
  TimeZone : String
  Currently : DSCurrently
  deriving DecidableEq

/-- `DSToWeather` (src/unnamed/part_000 lines 339-350).  `Snowfall` and `UV`
are never assigned, so they keep Go's zero value; `int(... * 100)` truncates
toward zero; `float64(f.Currently.WindBearing)` is the cast `ℤ → ℚ`. -/
def DSToWeather (f : DarkSkyForecast) : Weather :=
  { Temperature := f.Currently.Temperature
    Pressure := f.Currently.Pressure
    Humidity := goIntTrunc (f.Currently.Humidity * 100)
    Weather := f.Currently.Summary
    WindSpeed := f.Currently.WindSpeed
    WindDeg := (f.Currently.WindBearing : ℚ)
    Cloudiness := goIntTrunc (f.Currently.CloudCover * 100)
    Rainfall := f.Currently.PrecipIntensity
    Snowfall := 0
    UV := 0 }

/-! ## Concrete inputs from the §8 end-to-end scenarios -/

/-- The §8 provider-A raw response
`{Main:{Temp:15.2,Pressure:1013,Humidity:60},Weather:[{Main:"Clouds"}],Wind:{Speed:3.1,Deg:180},Clouds:{All:80},Rain:{ThreeH:1.5}}`. -/
def owmScenarioInput : CurrentWeatherData :=
  { Main := { Temp := 76/5, Pressure := 1013, Humidity := 60 }
    Weather := [{ Main := "Clouds" }]
    Wind := { Speed := 31/10, Deg := 180 }
    Clouds := { All := 80 }
    Rain := { ThreeH := 3/2 } }

/-- The §8 UV value `4.2`. -/
def owmScenarioUV : UV := { Value := 21/5 }

/-- The §8 expected provider-A Weather record. -/
def owmScenarioExpect : Weather :=
  { Temperature := 76/5, Pressure := 1013, Humidity := 60, Weather := "Clouds"
    WindSpeed := 31/10, WindDeg := 180, Cloudiness := 80, Rainfall := 1/2
    Snowfall := 0, UV := 21/5 }

/-- The §8 provider-B raw response
`currently:{temperature:10.0,pressure:1000,humidity:0.55,summary:"Rain",windSpeed:2.0,windBearing:90,precipIntensity:0.3,cloudCover:0.9}`. -/
def dsScenarioInput : DarkSkyForecast :=
  { Latitude := 0, Longitude := 0, TimeZone := ""
    Currently := { Time := 0, Summary := "Rain", Icon := ""
                   Temperature := 10, Pressure := 1000, Humidity := 11/20
                   WindSpeed := 2, WindBearing := 90, PrecipIntensity := 3/10
                   CloudCover := 9/10, UVIndex := 0 } }

/-- The §8 expected provider-B Weather record. -/
def dsScenarioExpect : Weather :=
  { Temperature := 10, Pressure := 1000, Humidity := 55, Weather := "Rain"
    WindSpeed := 2, WindDeg := 90, Cloudiness := 90, Rainfall := 3/10
    Snowfall := 0, UV := 0 }

/-! ## Metrics recorder (src/unnamed/part_000 lines 254-268)

`stats.Record` is modelled as the list of measurements submitted in that one
call.  `tag.New(context.Background(), tag.Upsert(KeyNodeId, id))` upserts the
node-id key into the empty background tag map, but first validates the tag
value: opencensus accepts only values of at most 255 printable-ASCII
characters and `tag.New` fails exactly on an invalid value.  On that failure
the Go code logs `failed to insert key` and returns the error with no
measurements submitted (lines 255-259). -/

/-- Measure names (src/unnamed/part_000 lines 44-48). -/
def MeasureTemperature : String := "temperature"

def MeasurePressure : String := "pressure"

def MeasureHumidity : String := "humidity"

def MeasureWindSpeed : String := "windspeed"

/-- The fixed label key (src/unnamed/part_000 line 105). -/
def KeyNodeId : String := "node_id"

/-- A single submitted measurement: a Float64 measure or an Int64 measure. -/
inductive Submission where
  | f64 (measure : String) (value : ℚ)
  | i64 (measure : String) (value : ℤ)
  deriving DecidableEq

/-- The measure name a submission is recorded against. -/
def Submission.measureName : Submission → String
  | .f64 m _ => m
  | .i64 m _ => m

/-- A tag context: an association list of tag keys to values. -/
structure TagContext where
  tags : List (String × String)
  deriving DecidableEq

/-- `context.Background()` carries no tags. -/
def backgroundContext : TagContext := ⟨[]⟩

/-- `tag.Upsert`: replace the key's value if present, else append it. -/
def tagUpsert (tags : List (String × String)) (k v : String) :
    List (String × String) :=
  if tags.any (fun p => p.1 = k) then
    tags.map (fun p => if p.1 = k then (k, v) else p)
  else tags ++ [(k, v)]

/-- A printable-ASCII character, the only characters opencensus accepts in a
tag value. -/
def isPrintableTagChar (c : Char) : Bool :=
  decide (' ' ≤ c) && decide (c ≤ '~')

/-- opencensus tag-value validity: at most 255 characters, all printable
ASCII (a string passing the character check has equal byte and character
counts, so character length matches Go's byte length here). -/
def checkTagValue (v : String) : Bool :=
  decide (v.length ≤ 255) && v.data.all isPrintableTagChar

/-- `tag.New` applied with a single `tag.Upsert` mutator: fails on an invalid
tag value, otherwise upserts the pair. -/
def tagNew (ctx : TagContext) (k v : String) : Except String TagContext :=
  if checkTagValue v then .ok ⟨tagUpsert ctx.tags k v⟩
  else .error "invalid value"

/-- The observable effect of one successful `RecordMeasurement` call. -/
structure RecordResult where
  ctx : TagContext
  submissions : List Submission
  deriving DecidableEq

/-- `RecordMeasurement` (src/unnamed/part_000 lines 254-268): tag the context
with the source id under `node_id`; if `tag.New` fails, log
`failed to insert key` and return the error with nothing submitted (lines
255-259); otherwise record temperature, pressure, humidity (as Int64:
`int64(w.Humidity)`) and wind speed in one batch.  Returns the log lines it
emits alongside the result. -/
def RecordMeasurement (id : String) (w : Weather) :
    List String × Except String RecordResult :=
  match tagNew backgroundContext KeyNodeId id with
  | .error e => (["failed to insert key: " ++ e], .error e)
  | .ok ctx =>
    ([], .ok { ctx := ctx
               submissions :=
                 [ .f64 MeasureTemperature w.Temperature
                 , .f64 MeasurePressure w.Pressure
                 , .i64 MeasureHumidity w.Humidity
                 , .f64 MeasureWindSpeed w.WindSpeed ] })

/-! ## Poll loop (src/unnamed/part_000 lines 192-214)

Each tick of either timer is an event carrying the outcome of that tick's
network fetch; the loop body is `stepTick`.  A Go runtime panic (the unguarded
`w.Weather[0]` on the OWM path) is `none`; every handled outcome is `some`. -/

/-- Outcome of a tick's network fetch. -/
inductive FetchResult (α : Type) where
  | ok (value : α)
  | err (msg : String)
  deriving DecidableEq

/-- One timer firing, with the data its fetch produced. -/
inductive TickEvent where
  | owmTick (r : FetchResult CurrentWeatherData)
  | dsTick (r : FetchResult DarkSkyForecast)
  deriving DecidableEq

/-- Observable loop state: log lines emitted and measurements recorded. -/
structure LoopState where
  logs : List String
  recorded : List (String × RecordResult)
  deriving DecidableEq

/-- The body of one `select` arm of `main`'s loop: on fetch error, log and
abandon the tick (`break`); on success, map through the adapter and record,
logging `failed to record` if `RecordMeasurement` returns an error.
`uv` is the UV data fetched once at initialization. -/
def stepTick (uv : UV) (e : TickEvent) (s : LoopState) : Option LoopState :=
  match e with
  | .owmTick (.err m) =>
    some { s with logs :=
      s.logs ++ ["failed to call current data from OpenWeatherMap: " ++ m] }
  | .owmTick (.ok cw) =>
    match OWMToWeather cw uv with
    | none => none
    | some w =>
      match RecordMeasurement "openweathermap" w with
      | (rlogs, .error e) =>
        some { s with logs := s.logs ++ rlogs ++ ["failed to record: " ++ e] }
      | (rlogs, .ok rr) =>
        some { s with logs := s.logs ++ rlogs
                      recorded := s.recorded ++ [("openweathermap", rr)] }
  | .dsTick (.err m) =>
    some { s with logs := s.logs ++ ["failed to call DarkSky: " ++ m] }
  | .dsTick (.ok f) =>
    match RecordMeasurement "darksky" (DSToWeather f) with
    | (rlogs, .error e) =>
      some { s with logs := s.logs ++ rlogs ++ ["failed to record: " ++ e] }
    | (rlogs, .ok rr) =>
      some { s with logs := s.logs ++ rlogs
                    recorded := s.recorded ++ [("darksky", rr)] }

/-- Run the poll loop over a finite prefix of tick events. -/
def runTicks (uv : UV) : List TickEvent → LoopState → Option LoopState
  | [], s => some s
  | e :: es, s =>
    match stepTick uv e s with
    | none => none
    | some s' => runTicks uv es s'

/-! ## JSON decoding of the DarkSky response (src/unnamed/part_000 lines 306-323)

`json.NewDecoder(resp.Body).Decode(&f)` is modelled by a JSON value tree and
a decoder following Go `encoding/json` semantics for the struct
`DarkSkyForecast`: a field absent from the object keeps its current (zero)
value; JSON `null` leaves any field unchanged; a type mismatch is an error; a
JSON number stored into a Go `int` must be integral; unknown keys are
ignored; for duplicate keys the last occurrence wins. -/

inductive Json where
  | null
  | bool (b : Bool)
  | num (q : ℚ)
  | str (s : String)
  | arr (elems : List Json)
  | obj (fields : List (String × Json))

/-- Last-occurrence lookup of a key in a JSON object, as Go's decoder
overwrites on duplicate keys. -/
def jsonLookup (fields : List (String × Json)) (k : String) : Option Json :=
  fields.foldl (fun acc p => if p.1 = k then some p.2 else acc) none

/-- Decode a JSON value into a Go `float64` field holding `cur`. -/
def goDecodeFloat (j : Json) (cur : ℚ) : Except String ℚ :=
  match j with
  | .num q => .ok q
  | .null => .ok cur
  | _ => .error "cannot unmarshal value into Go value of type float64"

/-- Decode a JSON value into a Go `int`/`int64` field holding `cur`:
a JSON number must be integral. -/
def goDecodeInt (j : Json) (cur : ℤ) : Except String ℤ :=
  match j with
  | .num q => if q.den = 1 then .ok q.num
              else .error "cannot unmarshal number into Go value of type int"
  | .null => .ok cur
  | _ => .error "cannot unmarshal value into Go value of type int"

/-- Decode a JSON value into a Go `string` field holding `cur`. -/
def goDecodeString (j : Json) (cur : String) : Except String String :=
  match j with
  | .str s => .ok s
  | .null => .ok cur
  | _ => .error "cannot unmarshal value into Go value of type string"

/-- Decode an optional object member: an absent key keeps the current value. -/
def goDecodeField (dec : Json → α → Except String α)
    (fields : List (String × Json)) (k : String) (cur : α) : Except String α :=
  match jsonLookup fields k with
  | none => .ok cur
  | some j => dec j cur

/-- The zero value of the `currently` struct. -/
def DSCurrently.zero : DSCurrently :=
  { Time := 0, Summary := "", Icon := "", Temperature := 0, Pressure := 0
    Humidity := 0, WindSpeed := 0, WindBearing := 0, PrecipIntensity := 0
    CloudCover := 0, UVIndex := 0 }

/-- The zero value of `DarkSkyForecast`. -/
def DarkSkyForecast.zero : DarkSkyForecast :=
  { Latitude := 0, Longitude := 0, TimeZone := "", Currently := DSCurrently.zero }

/-- Decode a JSON value into the anonymous `currently` struct. -/
def decodeDSCurrently (j : Json) (cur : DSCurrently) : Except String DSCurrently :=
  match j with
  | .null => .ok cur
  | .obj fields => do
    let time ← goDecodeField goDecodeInt fields "time" cur.Time
    let summary ← goDecodeField goDecodeString fields "summary" cur.Summary
    let icon ← goDecodeField goDecodeString fields "icon" cur.Icon
    let temperature ← goDecodeField goDecodeFloat fields "temperature" cur.Temperature
    let pressure ← goDecodeField goDecodeFloat fields "pressure" cur.Pressure
    let humidity ← goDecodeField goDecodeFloat fields "humidity" cur.Humidity
    let windSpeed ← goDecodeField goDecodeFloat fields "windSpeed" cur.WindSpeed
    let windBearing ← goDecodeField goDecodeInt fields "windBearing" cur.WindBearing
    let precipIntensity ←
      goDecodeField goDecodeFloat fields "precipIntensity" cur.PrecipIntensity
    let cloudCover ← goDecodeField goDecodeFloat fields "cloudCover" cur.CloudCover
    let uvIndex ← goDecodeField goDecodeFloat fields "uvIndex" cur.UVIndex
    .ok { Time := time, Summary := summary, Icon := icon
          Temperature := temperature, Pressure := pressure, Humidity := humidity
          WindSpeed := windSpeed, WindBearing := windBearing
          PrecipIntensity := precipIntensity, CloudCover := cloudCover
          UVIndex := uvIndex }
  | _ => .error "cannot unmarshal value into Go struct field currently"

/-- Decode a JSON value into `DarkSkyForecast`, starting from the zero value
the Go code declares with `var f DarkSkyForecast`. -/
def decodeDarkSkyForecast (j : Json) : Except String DarkSkyForecast :=
  match j with
  | .null => .ok DarkSkyForecast.zero
  | .obj fields => do
    let latitude ←
      goDecodeField goDecodeFloat fields "latitude" DarkSkyForecast.zero.Latitude
    let longitude ←
      goDecodeField goDecodeFloat fields "longitude" DarkSkyForecast.zero.Longitude
    let timeZone ←
      goDecodeField goDecodeString fields "timezone" DarkSkyForecast.zero.TimeZone
    let currently ←
      goDecodeField decodeDSCurrently fields "currently" DarkSkyForecast.zero.Currently
    .ok { Latitude := latitude, Longitude := longitude, TimeZone := timeZone
          Currently := currently }
  | _ => .error "cannot unmarshal value into Go value of type main.DarkSkyForecast"

/-- An HTTP response body: either not a single well-formed JSON value, or a
well-formed JSON value. -/
inductive Body where
  | malformed
  | wellFormed (j : Json)

/-- The two failure classes of `CallDarkSkyForecast`, distinguished by which
branch logs and returns: the HTTP-call branch or the JSON-decode branch. -/
inductive CallError where
  | fetchError (msg : String)
  | decodeError (msg : String)
  deriving DecidableEq

/-- `CallDarkSkyForecast` (src/unnamed/part_000 lines 306-323): on HTTP
failure, log and return the fetch error; otherwise decode the body, logging
and returning a decode error on failure; on success return the forecast.
Returns the log lines it emits alongside the result. -/
def CallDarkSkyForecast (httpResult : Except String Body) :
    List String × Except CallError DarkSkyForecast :=
  match httpResult with
  | .error e =>
    (["failed to call DarkSky forecast API: " ++ e], .error (.fetchError e))
  | .ok .malformed =>
    (["failed to decode DarkSky reponse: invalid character"],
      .error (.decodeError "invalid character"))
  | .ok (.wellFormed j) =>
    match decodeDarkSkyForecast j with
    | .error e =>
      (["failed to decode DarkSky reponse: " ++ e], .error (.decodeError e))
    | .ok f => ([], .ok f)

/-! ## OpenWeatherMap initialization (src/unnamed/part_000 lines 270-285)

The two client constructions and the two warm-up fetches are external calls
whose outcomes are passed in.  On a construction failure the function logs and
returns the error.  The return values of the two warm-up calls
`w.CurrentByCoordinates(TargetCoodinates)` and `uv.Current(TargetCoodinates)`
are discarded by the Go code: a warm-up failure leaves the freshly
constructed zero-valued client data in place and is not logged. -/

structure InitResult where
  logs : List String
  result : Except String (CurrentWeatherData × UV)

def InitOpenWeatherMap (newCurrent currentByCoord : Except String CurrentWeatherData)
    (newUV uvCurrent : Except String UV) : InitResult :=
  match newCurrent with
  | .error e =>
    { logs := ["failed to initialize OpenWeatherMap current weather data: " ++ e]
      result := .error e }
  | .ok w0 =>
    let w := match currentByCoord with
      | .ok w' => w'
      | .error _ => w0
    match newUV with
    | .error e =>
      { logs := ["failed to initialize OpenWeatherMap UV data: " ++ e]
        result := .error e }
    | .ok uv0 =>
      let uv := match uvCurrent with
        | .ok u' => u'
        | .error _ => uv0
      { logs := [], result := .ok (w, uv) }

/-- An out-of-range provider-A response: raw humidity 150.  The adapter
performs no validation, so the value flows through unchanged. -/
def owmOutOfRangeInput : CurrentWeatherData :=
  { Main := { Temp := 0, Pressure := 0, Humidity := 150 }
    Weather := [{ Main := "Clear" }]
    Wind := { Speed := 0, Deg := 0 }
    Clouds := { All := 0 }
    Rain := { ThreeH := 0 } }

/-- For a nonnegative rational, Go truncation toward zero agrees with floor. -/
theorem goIntTrunc_eq_floor (q : ℚ) (hq : 0 ≤ q) : goIntTrunc q = ⌊q⌋ := by
  have hnum : 0 ≤ q.num := Rat.num_nonneg.mpr hq
  have hden : (0 : ℤ) ≤ (q.den : ℤ) := Int.ofNat_nonneg q.den
  rw [goIntTrunc, Int.tdiv_eq_ediv hnum hden, Rat.floor_def]

/-- Scaling a fraction in `[0,1]` by 100 and truncating lands in `[0,100]`. -/
theorem goIntTrunc_scale_mem (q : ℚ) (h0 : 0 ≤ q) (h1 : q ≤ 1) :
    0 ≤ goIntTrunc (q * 100) ∧ goIntTrunc (q * 100) ≤ 100 := by
  have hq : 0 ≤ q * 100 := by positivity
  rw [goIntTrunc_eq_floor _ hq]
  constructor
  · exact Int.floor_nonneg.mpr hq
  · have h : q * 100 ≤ (100 : ℚ) := by nlinarith
    calc ⌊q * 100⌋ ≤ ⌊(100 : ℚ)⌋ := Int.floor_le_floor h
    _ = 100 := by norm_num

/-- Evaluation of the provider-A adapter on the §8 scenario input. -/
theorem owmScenario_eval :
    OWMToWeather owmScenarioInput owmScenarioUV = some owmScenarioExpect := by
  simp only [OWMToWeather, owmScenarioInput, owmScenarioUV, owmScenarioExpect,
    Option.some.injEq, Weather.mk.injEq]
  norm_num

/-- Evaluation of the provider-B adapter on the §8 scenario input. -/
theorem dsScenario_eval : DSToWeather dsScenarioInput = dsScenarioExpect := by
  have h55 : goIntTrunc (55 : ℚ) = 55 := by
    rw [goIntTrunc_eq_floor _ (by norm_num)]; norm_num
  have h90 : goIntTrunc (90 : ℚ) = 90 := by
    rw [goIntTrunc_eq_floor _ (by norm_num)]; norm_num
  simp only [DSToWeather, dsScenarioInput, dsScenarioExpect, Weather.mk.injEq]
  norm_num [h55, h90]

/-- Claim C1: for every provider-A response the adapter accepts (nonempty
Weather array), the produced record keeps the raw integer humidity unchanged
and sets rainfall to the raw 3-hour rainfall divided by 3; on the concrete §8
input with UV 4.2 the result is exactly the §8 record. -/
theorem OWMToWeather_humidity_rainfall (w : CurrentWeatherData) (uv : UV)
    (hne : w.Weather ≠ []) :
    (∃ rec, OWMToWeather w uv = some rec ∧
      rec.Humidity = w.Main.Humidity ∧ rec.Rainfall = w.Rain.ThreeH / 3) ∧
    OWMToWeather owmScenarioInput owmScenarioUV = some owmScenarioExpect := by
  refine ⟨?_, owmScenario_eval⟩
  match hw : w.Weather with
  | [] => exact absurd hw hne
  | item0 :: rest => exact ⟨_, by rw [OWMToWeather, hw], rfl, rfl⟩

/-- Witness for C1: the hypotheses hold on the §8 scenario input. -/
theorem OWMToWeather_humidity_rainfall_witness :
    OWMToWeather owmScenarioInput owmScenarioUV = some owmScenarioExpect :=
  (OWMToWeather_humidity_rainfall owmScenarioInput owmScenarioUV
    (by simp [owmScenarioInput])).2

/-- Claim C2: for fractional humidity and cloud cover in `[0,1]`, the
provider-B adapter produces `Humidity = ⌊humidity * 100⌋` and
`Cloudiness = ⌊cloudCover * 100⌋`, both in `[0,100]`. -/
theorem DSToWeather_scaling (f : DarkSkyForecast)
    (hh0 : 0 ≤ f.Currently.Humidity) (hh1 : f.Currently.Humidity ≤ 1)
    (hc0 : 0 ≤ f.Currently.CloudCover) (hc1 : f.Currently.CloudCover ≤ 1) :
    (DSToWeather f).Humidity = ⌊f.Currently.Humidity * 100⌋ ∧
    (DSToWeather f).Cloudiness = ⌊f.Currently.CloudCover * 100⌋ ∧
    (0 ≤ (DSToWeather f).Humidity ∧ (DSToWeather f).Humidity ≤ 100) ∧
    (0 ≤ (DSToWeather f).Cloudiness ∧ (DSToWeather f).Cloudiness ≤ 100) := by
  refine ⟨?_, ?_, ?_, ?_⟩
  · exact goIntTrunc_eq_floor _ (by positivity)
  · exact goIntTrunc_eq_floor _ (by positivity)
  · exact goIntTrunc_scale_mem _ hh0 hh1
  · exact goIntTrunc_scale_mem _ hc0 hc1

/-- Witness for C2: the hypotheses hold on the §8 scenario input. -/
theorem DSToWeather_scaling_witness :
    (DSToWeather dsScenarioInput).Humidity = ⌊dsScenarioInput.Currently.Humidity * 100⌋ ∧
    (DSToWeather dsScenarioInput).Cloudiness = ⌊dsScenarioInput.Currently.CloudCover * 100⌋ ∧
    (0 ≤ (DSToWeather dsScenarioInput).Humidity ∧
      (DSToWeather dsScenarioInput).Humidity ≤ 100) ∧
    (0 ≤ (DSToWeather dsScenarioInput).Cloudiness ∧
      (DSToWeather dsScenarioInput).Cloudiness ≤ 100) :=
  DSToWeather_scaling dsScenarioInput (by norm_num [dsScenarioInput])
    (by norm_num [dsScenarioInput]) (by norm_num [dsScenarioInput])
    (by norm_num [dsScenarioInput])

/-- Claim C3: the provider-B adapter copies the precipitation intensity into
Rainfall unchanged for every response, and on the concrete §8 input produces
exactly the §8 record. -/
theorem DSToWeather_rainfall_direct :
    (∀ f : DarkSkyForecast, (DSToWeather f).Rainfall = f.Currently.PrecipIntensity) ∧
    DSToWeather dsScenarioInput = dsScenarioExpect :=
  ⟨fun _ => rfl, dsScenario_eval⟩

/-- Claim C8: both adapters leave Snowfall at zero, and the provider-B adapter
also leaves UV at zero even though the decoded response carries a uvIndex. -/
theorem adapters_snowfall_uv_zero :
    (∀ (w : CurrentWeatherData) (uv : UV) (rec : Weather),
      OWMToWeather w uv = some rec → rec.Snowfall = 0) ∧
    (∀ f : DarkSkyForecast, (DSToWeather f).Snowfall = 0 ∧ (DSToWeather f).UV = 0) := by
  constructor
  · intro w uv rec hw
    match hlist : w.Weather with
    | [] => rw [OWMToWeather, hlist] at hw; exact absurd hw (by simp)
    | item0 :: rest =>
      rw [OWMToWeather, hlist] at hw
      cases hw
      rfl
  · intro f
    exact ⟨rfl, rfl⟩

/-- Witness for C8: the OWM conjunct applied on the §8 scenario input. -/
theorem adapters_snowfall_uv_zero_witness : owmScenarioExpect.Snowfall = 0 :=
  adapters_snowfall_uv_zero.1 owmScenarioInput owmScenarioUV owmScenarioExpect
    owmScenario_eval

/-- Counterexample to claim C9 as stated: the adapters validate nothing, so a
provider-A response with raw humidity 150 (accepted by the adapter) yields a
record whose Humidity is 150, outside `[0,100]`. -/
theorem adapters_range_counterexample :
    (OWMToWeather owmOutOfRangeInput { Value := 0 }).map Weather.Humidity = some 150 ∧
    ¬ ((150 : ℤ) ≤ 100) := by
  exact ⟨rfl, by decide⟩

/-- Claim C9 (amended): when the raw provider values are themselves in range
(provider-A integer humidity and cloudiness in `[0,100]`; provider-B
fractional humidity and cloud cover in `[0,1]`), every record either adapter
produces has Humidity and Cloudiness in `[0,100]`. -/
theorem adapters_range_invariant (w : CurrentWeatherData) (uv : UV) (rec : Weather)
    (hw : OWMToWeather w uv = some rec)
    (hh0 : 0 ≤ w.Main.Humidity) (hh1 : w.Main.Humidity ≤ 100)
    (hc0 : 0 ≤ w.Clouds.All) (hc1 : w.Clouds.All ≤ 100) :
    (0 ≤ rec.Humidity ∧ rec.Humidity ≤ 100 ∧
      0 ≤ rec.Cloudiness ∧ rec.Cloudiness ≤ 100) ∧
    (∀ f : DarkSkyForecast, 0 ≤ f.Currently.Humidity → f.Currently.Humidity ≤ 1 →
      0 ≤ f.Currently.CloudCover → f.Currently.CloudCover ≤ 1 →
      0 ≤ (DSToWeather f).Humidity ∧ (DSToWeather f).Humidity ≤ 100 ∧
      0 ≤ (DSToWeather f).Cloudiness ∧ (DSToWeather f).Cloudiness ≤ 100) := by
  constructor
  · match hlist : w.Weather with
    | [] => rw [OWMToWeather, hlist] at hw; exact absurd hw (by simp)
    | item0 :: rest =>
      rw [OWMToWeather, hlist] at hw
      cases hw
      exact ⟨hh0, hh1, hc0, hc1⟩
  · intro f hf0 hf1 hg0 hg1
    obtain ⟨ha, hb⟩ := goIntTrunc_scale_mem f.Currently.Humidity hf0 hf1
    obtain ⟨hc, hd⟩ := goIntTrunc_scale_mem f.Currently.CloudCover hg0 hg1
    exact ⟨ha, hb, hc, hd⟩

/-- Witness for the amended C9: instantiated on the §8 provider-A input. -/
theorem adapters_range_invariant_witness :
    0 ≤ owmScenarioExpect.Humidity ∧ owmScenarioExpect.Humidity ≤ 100 ∧
    0 ≤ owmScenarioExpect.Cloudiness ∧ owmScenarioExpect.Cloudiness ≤ 100 :=
  (adapters_range_invariant owmScenarioInput owmScenarioUV owmScenarioExpect
    owmScenario_eval (by norm_num [owmScenarioInput]) (by norm_num [owmScenarioInput])
    (by norm_num [owmScenarioInput]) (by norm_num [owmScenarioInput])).1

/-- Claim C10: the provider-A adapter reads index 0 of the Weather array
unguarded, so it succeeds exactly when that array is nonempty; on an empty
array the Go indexing panics (modelled as `none`). -/
theorem OWMToWeather_partiality (w : CurrentWeatherData) (uv : UV) :
    (OWMToWeather w uv).isSome ↔ w.Weather ≠ [] := by
  match hlist : w.Weather with
  | [] => rw [OWMToWeather, hlist]; simp
  | item0 :: rest => rw [OWMToWeather, hlist]; simp

/-- Counterexample to claim C4 as stated: a source identifier that is not a
valid opencensus tag value (here a lone newline character) makes `tag.New`
fail, so `RecordMeasurement` logs the failure and returns the error with no
measurements submitted — not 4. -/
theorem RecordMeasurement_invalid_id_counterexample :
    RecordMeasurement "\n" owmScenarioExpect =
      (["failed to insert key: invalid value"], .error "invalid value") := rfl

/-- Claim C4 (amended): for every Weather record and every source identifier
that is a valid tag value (at most 255 printable-ASCII characters), the
recorder tags the context with the id under the `node_id` key and submits
exactly the four measurements temperature, pressure, humidity (as an Int64
measure) and wind speed, in that order and no others, with no log output;
for an invalid identifier the `tag.New` failure is logged and the error is
returned with nothing submitted. -/
theorem RecordMeasurement_exactly_four (id : String) (w : Weather)
    (hid : checkTagValue id = true) :
    (RecordMeasurement id w = ([], .ok
      { ctx := { tags := [(KeyNodeId, id)] }
        submissions :=
          [ Submission.f64 MeasureTemperature w.Temperature
          , Submission.f64 MeasurePressure w.Pressure
          , Submission.i64 MeasureHumidity w.Humidity
          , Submission.f64 MeasureWindSpeed w.WindSpeed ] })) ∧
    (∀ rr, (RecordMeasurement id w).2 = .ok rr →
      rr.submissions.map Submission.measureName =
        [MeasureTemperature, MeasurePressure, MeasureHumidity, MeasureWindSpeed] ∧
      rr.submissions.length = 4) ∧
    (∀ id', checkTagValue id' = false → RecordMeasurement id' w =
      (["failed to insert key: invalid value"], .error "invalid value")) := by
  have hmain : RecordMeasurement id w = ([], .ok
      { ctx := { tags := [(KeyNodeId, id)] }
        submissions :=
          [ Submission.f64 MeasureTemperature w.Temperature
          , Submission.f64 MeasurePressure w.Pressure
          , Submission.i64 MeasureHumidity w.Humidity
          , Submission.f64 MeasureWindSpeed w.WindSpeed ] }) := by
    simp [RecordMeasurement, tagNew, hid, tagUpsert, backgroundContext]
  refine ⟨hmain, ?_, ?_⟩
  · intro rr hrr
    rw [hmain] at hrr
    simp only [Except.ok.injEq] at hrr
    subst hrr
    exact ⟨rfl, rfl⟩
  · intro id' hid'
    simp [RecordMeasurement, tagNew, hid']

/-- Witness for the amended C4: the loop's actual id `"openweathermap"` is a
valid tag value and yields exactly the four submissions. -/
theorem RecordMeasurement_exactly_four_witness :
    RecordMeasurement "openweathermap" owmScenarioExpect = ([], .ok
      { ctx := { tags := [(KeyNodeId, "openweathermap")] }
        submissions :=
          [ Submission.f64 MeasureTemperature owmScenarioExpect.Temperature
          , Submission.f64 MeasurePressure owmScenarioExpect.Pressure
          , Submission.i64 MeasureHumidity owmScenarioExpect.Humidity
          , Submission.f64 MeasureWindSpeed owmScenarioExpect.WindSpeed ] }) :=
  (RecordMeasurement_exactly_four "openweathermap" owmScenarioExpect (by decide)).1

/-- Claim C5: a fetch failure on either path is logged, the tick is abandoned
(nothing recorded), and the loop goes on to process the remaining events
unchanged; in particular a provider-B tick following a failed provider-A tick
still records its measurement, and vice versa. -/
theorem poll_loop_survives_fetch_failure (uv : UV) (m : String) (s : LoopState)
    (es : List TickEvent) (f : DarkSkyForecast) (cw : CurrentWeatherData)
    (item0 : OWMWeatherItem) (rest : List OWMWeatherItem)
    (hcw : cw.Weather = item0 :: rest) :
    (runTicks uv (.owmTick (.err m) :: es) s = runTicks uv es
      { s with logs :=
          s.logs ++ ["failed to call current data from OpenWeatherMap: " ++ m] }) ∧
    (runTicks uv (.dsTick (.err m) :: es) s = runTicks uv es
      { s with logs := s.logs ++ ["failed to call DarkSky: " ++ m] }) ∧
    (runTicks uv [.owmTick (.err m), .dsTick (.ok f)] s = some
      { logs :=
          s.logs ++ ["failed to call current data from OpenWeatherMap: " ++ m]
        recorded := s.recorded ++ [("darksky",
          { ctx := { tags := [(KeyNodeId, "darksky")] }
            submissions :=
              [ Submission.f64 MeasureTemperature (DSToWeather f).Temperature
              , Submission.f64 MeasurePressure (DSToWeather f).Pressure
              , Submission.i64 MeasureHumidity (DSToWeather f).Humidity
              , Submission.f64 MeasureWindSpeed (DSToWeather f).WindSpeed ] })] }) ∧
    (runTicks uv [.dsTick (.err m), .owmTick (.ok cw)] s = some
      { logs := s.logs ++ ["failed to call DarkSky: " ++ m]
        recorded := s.recorded ++ [("openweathermap",
          { ctx := { tags := [(KeyNodeId, "openweathermap")] }
            submissions :=
              [ Submission.f64 MeasureTemperature cw.Main.Temp
              , Submission.f64 MeasurePressure cw.Main.Pressure
              , Submission.i64 MeasureHumidity cw.Main.Humidity
              , Submission.f64 MeasureWindSpeed cw.Wind.Speed ] })] }) := by
  have hds : checkTagValue "darksky" = true := by decide
  have howm : checkTagValue "openweathermap" = true := by decide
  refine ⟨rfl, rfl, ?_, ?_⟩
  · simp [runTicks, stepTick, RecordMeasurement, tagNew, hds, tagUpsert,
      backgroundContext]
  · simp [runTicks, stepTick, OWMToWeather, hcw, RecordMeasurement, tagNew,
      howm, tagUpsert, backgroundContext]

/-- Witness for C5: instantiated on the §8 scenario data, with the concrete
nonempty Weather array discharging the hypothesis. -/
theorem poll_loop_survives_fetch_failure_witness :
    runTicks owmScenarioUV
        [.owmTick (.err "timeout"), .dsTick (.ok dsScenarioInput)]
        { logs := [], recorded := [] } = some
      { logs := ["failed to call current data from OpenWeatherMap: timeout"]
        recorded := [("darksky",
          { ctx := { tags := [(KeyNodeId, "darksky")] }
            submissions :=
              [ Submission.f64 MeasureTemperature 10
              , Submission.f64 MeasurePressure 1000
              , Submission.i64 MeasureHumidity 55
              , Submission.f64 MeasureWindSpeed 2 ] })] } := by
  have h := (poll_loop_survives_fetch_failure owmScenarioUV "timeout"
    { logs := [], recorded := [] } [] dsScenarioInput owmScenarioInput
    { Main := "Clouds" } [] rfl).2.2.1
  rw [dsScenario_eval] at h
  simpa [dsScenarioExpect] using h

/-- Counterexample to claim C6 as stated: a well-formed JSON body with no
`currently` member is NOT a decode failure — Go's decoder leaves absent
struct fields at their zero values, so `CallDarkSkyForecast` returns the
zero-valued forecast successfully rather than a decode error. -/
theorem CallDarkSkyForecast_missing_currently_ok :
    CallDarkSkyForecast (.ok (.wellFormed (Json.obj []))) =
      ([], Except.ok DarkSkyForecast.zero) := rfl

/-- Claim C6 (amended): an HTTP failure is reported as a fetch error; a body
that is not a single well-formed JSON value, or whose fields mismatch the
schema, is reported as a decode error, distinct from a fetch error; the
function is total (never panics) on every input; and a well-formed body
missing the `currently` member decodes successfully to the zero value. -/
theorem CallDarkSkyForecast_error_classes :
    (∀ e, CallDarkSkyForecast (.error e) =
      (["failed to call DarkSky forecast API: " ++ e],
        .error (.fetchError e))) ∧
    ((CallDarkSkyForecast (.ok .malformed)).2 =
      .error (.decodeError "invalid character")) ∧
    (∀ j e, decodeDarkSkyForecast j = .error e →
      CallDarkSkyForecast (.ok (.wellFormed j)) =
        (["failed to decode DarkSky reponse: " ++ e], .error (.decodeError e))) ∧
    (∀ b e, (CallDarkSkyForecast (.ok b)).2 ≠ .error (.fetchError e)) ∧
    ((CallDarkSkyForecast (.ok (.wellFormed (Json.obj [])))).2 =
      Except.ok DarkSkyForecast.zero) := by
  refine ⟨fun e => rfl, rfl, ?_, ?_, rfl⟩
  · intro j e hj
    simp only [CallDarkSkyForecast, hj]
  · intro b e
    match b with
    | .malformed => simp [CallDarkSkyForecast]
    | .wellFormed j =>
      simp only [CallDarkSkyForecast]
      match hd : decodeDarkSkyForecast j with
      | .error e' => simp
      | .ok f => simp

/-- Witness for the amended C6: a top-level JSON number is a schema mismatch
and is reported as a decode error. -/
theorem CallDarkSkyForecast_error_classes_witness :
    CallDarkSkyForecast (.ok (.wellFormed (Json.num 5))) =
      (["failed to decode DarkSky reponse: " ++
          "cannot unmarshal value into Go value of type main.DarkSkyForecast"],
        .error (.decodeError
          "cannot unmarshal value into Go value of type main.DarkSkyForecast")) :=
  CallDarkSkyForecast_error_classes.2.2.1 (Json.num 5)
    "cannot unmarshal value into Go value of type main.DarkSkyForecast" rfl

/-- Counterexample to claim C7 as stated: the errors of the two warm-up calls
in `InitOpenWeatherMap` (`w.CurrentByCoordinates` and `uv.Current`) are
discarded without any log entry — a failing operation that is silently
swallowed. -/
theorem InitOpenWeatherMap_swallows_warmup_errors :
    (InitOpenWeatherMap (.ok owmScenarioInput) (.error "connection refused")
      (.ok owmScenarioUV) (.ok owmScenarioUV)).logs = [] ∧
    (InitOpenWeatherMap (.ok owmScenarioInput) (.ok owmScenarioInput)
      (.ok owmScenarioUV) (.error "connection refused")).logs = [] :=
  ⟨rfl, rfl⟩

/-- Claim C7 (amended): every failure path produces a log entry — client
construction failures in `InitOpenWeatherMap`, per-tick fetch failures on
either loop path, fetch or decode failures in `CallDarkSkyForecast`, and
measurement-tagging failures in `RecordMeasurement` — except the two warm-up
calls in `InitOpenWeatherMap`, whose errors are discarded without logging. -/
theorem error_logging_discipline :
    (∀ e cbc nuv nuc, (InitOpenWeatherMap (.error e) cbc nuv nuc).logs =
      ["failed to initialize OpenWeatherMap current weather data: " ++ e]) ∧
    (∀ w0 cbc e nuc, (InitOpenWeatherMap (.ok w0) cbc (.error e) nuc).logs =
      ["failed to initialize OpenWeatherMap UV data: " ++ e]) ∧
    (∀ w0 uv0 e e', (InitOpenWeatherMap (.ok w0) (.error e)
      (.ok uv0) (.error e')).logs = []) ∧
    (∀ e, (CallDarkSkyForecast (.error e)).1 ≠ []) ∧
    (∀ b e, (CallDarkSkyForecast (.ok b)).2 = .error e →
      (CallDarkSkyForecast (.ok b)).1 ≠ []) ∧
    (∀ uv m s, stepTick uv (.owmTick (.err m)) s = some { s with logs :=
      s.logs ++ ["failed to call current data from OpenWeatherMap: " ++ m] }) ∧
    (∀ uv m s, stepTick uv (.dsTick (.err m)) s = some { s with logs :=
      s.logs ++ ["failed to call DarkSky: " ++ m] }) ∧
    (∀ id w e, (RecordMeasurement id w).2 = .error e →
      (RecordMeasurement id w).1 ≠ []) := by
  refine ⟨fun e cbc nuv nuc => rfl, fun w0 cbc e nuc => rfl,
    fun w0 uv0 e e' => rfl, fun e => by simp [CallDarkSkyForecast], ?_,
    fun uv m s => rfl, fun uv m s => rfl, ?_⟩
  · intro b e hb
    match b with
    | .malformed => simp [CallDarkSkyForecast]
    | .wellFormed j =>
      simp only [CallDarkSkyForecast] at hb ⊢
      match hd : decodeDarkSkyForecast j with
      | .error e' => simp
      | .ok f => rw [hd] at hb; exact absurd hb (by simp)
  · intro id w e hrec
    by_cases hid : checkTagValue id = true
    · simp [RecordMeasurement, tagNew, hid] at hrec
    · rw [Bool.not_eq_true] at hid
      simp [RecordMeasurement, tagNew, hid]

/-- Witness for the amended C7: the decode-failure branch logs on a malformed
body, and the tagging-failure branch logs on an invalid source identifier. -/
theorem error_logging_discipline_witness :
    (CallDarkSkyForecast (.ok .malformed)).1 ≠ [] ∧
    (RecordMeasurement "\n" owmScenarioExpect).1 ≠ [] :=
  ⟨error_logging_discipline.2.2.2.2.1 Body.malformed
      (.decodeError "invalid character") rfl,
   error_logging_discipline.2.2.2.2.2.2.2 "\n" owmScenarioExpect
      "invalid value" rfl⟩

end Susanoo
